import Mathlib

/-!
Verification of the ksway IPC client (wire codec, request/event
multiplexing, command/criteria rendering) against its specification.

Bytes are modelled as natural numbers (every byte produced here is < 256),
byte strings as `List Nat`, and the socket as explicit lists of incoming
frames / outgoing bytes.  Multi-byte integers use the platform-native byte
order; client and compositor always share one little-endian host, so native
order is little-endian here.  A Rust `panic!`/`unwrap` failure is modelled
as a distinguished `panicked` outcome, distinct from every `Error` value.
-/

namespace Ksway

/-- UTF-8 bytes of an ASCII string (all protocol-level strings here are
ASCII, where UTF-8 coincides with the code points). -/
def strBytes (s : String) : List Nat :=
  s.toList.map Char.toNat

/-- The fixed 6-byte magic marker `"i3-ipc"` preceding every frame. -/
def MAGIC : List Nat := strBytes "i3-ipc"

/-- Encode a `u32` in native (little-endian) byte order, reducing mod 2^32
exactly as the Rust `as u32` cast does. -/
def u32ne (n : Nat) : List Nat :=
  [n % 256, n / 256 % 256, n / 65536 % 256, n / 16777216 % 256]

/-- Event kinds, from `enum IpcEvent` in src/lib.rs. -/
inductive IpcEvent where
  | workspace
  | mode
  | window
  | barconfigUpdate
  | binding
  | shutdown
  | tick
  | barStatusUpdate
deriving DecidableEq

/-- The numeric event codes (the `#[repr(u32)]` discriminants of
`IpcEvent`); all have bit 31 set. -/
def IpcEvent.code : IpcEvent → Nat
  | .workspace => 0x80000000
  | .mode => 0x80000002
  | .window => 0x80000003
  | .barconfigUpdate => 0x80000004
  | .binding => 0x80000005
  | .shutdown => 0x80000006
  | .tick => 0x80000007
  | .barStatusUpdate => 0x80000014

/-- Model of `IpcEvent::from_u32` as derived by `num_derive::FromPrimitive`:
recovers the variant whose discriminant equals `n`, `none` otherwise. -/
def IpcEvent.fromU32 (n : Nat) : Option IpcEvent :=
  if n = 0x80000000 then some .workspace
  else if n = 0x80000002 then some .mode
  else if n = 0x80000003 then some .window
  else if n = 0x80000004 then some .barconfigUpdate
  else if n = 0x80000005 then some .binding
  else if n = 0x80000006 then some .shutdown
  else if n = 0x80000007 then some .tick
  else if n = 0x80000014 then some .barStatusUpdate
  else none

/-- The serde `rename_all = "snake_case"` name of each event variant. -/
def IpcEvent.name : IpcEvent → String
  | .workspace => "workspace"
  | .mode => "mode"
  | .window => "window"
  | .barconfigUpdate => "barconfig_update"
  | .binding => "binding"
  | .shutdown => "shutdown"
  | .tick => "tick"
  | .barStatusUpdate => "bar_status_update"

/-- Command op-codes, from `enum IpcCommandCode` in src/lib.rs. -/
inductive IpcCommandCode where
  | runCommand
  | getWorkspaces
  | subscribe
  | getOutputs
  | getTree
  | getMarks
  | getBarConfig
  | getVersion
  | getBindingModes
  | getConfig
  | sendTick
deriving DecidableEq

/-- The numeric value of each op-code (`as u32` on the Rust enum). -/
def IpcCommandCode.toU32 : IpcCommandCode → Nat
  | .runCommand => 0
  | .getWorkspaces => 1
  | .subscribe => 2
  | .getOutputs => 3
  | .getTree => 4
  | .getMarks => 5
  | .getBarConfig => 6
  | .getVersion => 7
  | .getBindingModes => 8
  | .getConfig => 9
  | .sendTick => 10

/-- IPC commands, from `enum IpcCommand` in src/lib.rs.  The `run` field
holds the UTF-8 bytes of the rendered command string (a Rust `String` is
its UTF-8 byte representation, and `as_bytes` exposes exactly those
bytes); `sendTick` holds raw opaque bytes. -/
inductive IpcCommand where
  | run (command : List Nat)
  | getBarConfig
  | getBindingModes
  | getConfig
  | getMarks
  | getOutputs
  | getTree
  | getVersion
  | getWorkspaces
  | sendTick (payload : List Nat)
  | subscribe (events : List IpcEvent)
deriving DecidableEq

/-- Model of `IpcCommand::code` from src/lib.rs. -/
def IpcCommand.code : IpcCommand → IpcCommandCode
  | .getBarConfig => .getBarConfig
  | .getBindingModes => .getBindingModes
  | .getConfig => .getConfig
  | .getMarks => .getMarks
  | .getOutputs => .getOutputs
  | .getTree => .getTree
  | .getVersion => .getVersion
  | .getWorkspaces => .getWorkspaces
  | .run _ => .runCommand
  | .sendTick _ => .sendTick
  | .subscribe _ => .subscribe

/-- The JSON text `serde_json` writes for a `Vec<IpcEvent>`: a JSON array
of the snake_case variant names, no whitespace. -/
def subscribeJson (events : List IpcEvent) : String :=
  "[" ++ String.intercalate "," (events.map (fun e => "\"" ++ e.name ++ "\"")) ++ "]"

/-- Model of `IpcCommand::write` from src/lib.rs: the magic marker, then per-variant
the payload length as native `u32`, the op-code as native `u32`, and the
payload bytes; the catch-all arm writes length `0` and the op-code only. -/
def IpcCommand.write (cmd : IpcCommand) : List Nat :=
  MAGIC ++
    match cmd with
    | .run command => u32ne command.length ++ u32ne cmd.code.toU32 ++ command
    | .sendTick payload => u32ne payload.length ++ u32ne cmd.code.toU32 ++ payload
    | .subscribe events =>
        let payload := strBytes (subscribeJson events)
        u32ne payload.length ++ u32ne cmd.code.toU32 ++ payload
    | _ => u32ne 0 ++ u32ne cmd.code.toU32

/-- The payload of each command kind as the spec describes it: the UTF-8
command text for `run`, the raw bytes for `sendTick`, the JSON array of
lowercase snake_case event names for `subscribe`, and empty otherwise. -/
def commandPayload : IpcCommand → List Nat
  | .run command => command
  | .sendTick payload => payload
  | .subscribe events => strBytes (subscribeJson events)
  | _ => []

/-- C2: every encoded frame is the 6-byte magic `"i3-ipc"`, the payload
length as a native-byte-order u32, the op-code as a native-byte-order u32,
then the payload; the payload is the UTF-8 command text for `run`, the
raw bytes for `sendTick`, the JSON array of lowercase snake_case event
names for `subscribe`, and empty for every other command kind. -/
theorem ipc_command_write_frame (cmd : IpcCommand) :
    IpcCommand.write cmd =
      MAGIC ++ u32ne (commandPayload cmd).length ++ u32ne cmd.code.toU32 ++
        commandPayload cmd ∧
    MAGIC = [105, 51, 45, 105, 112, 99] ∧
    (∀ text, commandPayload (.run text) = text) ∧
    (∀ raw, commandPayload (.sendTick raw) = raw) ∧
    (∀ events, commandPayload (.subscribe events) = strBytes (subscribeJson events)) ∧
    commandPayload .getBarConfig = [] ∧
    commandPayload .getBindingModes = [] ∧
    commandPayload .getConfig = [] ∧
    commandPayload .getMarks = [] ∧
    commandPayload .getOutputs = [] ∧
    commandPayload .getTree = [] ∧
    commandPayload .getVersion = [] ∧
    commandPayload .getWorkspaces = [] := by
  refine ⟨?_, by decide, fun _ => rfl, fun _ => rfl, fun _ => rfl,
    rfl, rfl, rfl, rfl, rfl, rfl, rfl, rfl⟩
  cases cmd <;> simp [IpcCommand.write, commandPayload, List.append_assoc]

/-- Model of `enum OrFocused<T>` from the `criteria` module of src/lib.rs: either
the focused-window sentinel or a concrete value. -/
inductive OrFocused (α : Type) where
  | focused
  | value (t : α)
deriving DecidableEq

/-- The `derive_more::Display` rendering of `OrFocused`: the literal token
`__focused__` for the sentinel, the value's own display otherwise. -/
def OrFocused.render [ToString α] : OrFocused α → String
  | .focused => "__focused__"
  | .value t => toString t

/-- Model of `enum Criteria` from src/lib.rs (`class` and `instance` are Lean
keywords, hence the trailing underscore). -/
inductive Criteria where
  | appId (v : OrFocused String)
  | class_ (v : OrFocused String)
  | conId (v : OrFocused Nat)
  | conMark (v : String)
  | floating
  | id (v : Nat)
  | instance_ (v : OrFocused String)
  | shell (v : OrFocused String)
  | tiling
  | title (v : OrFocused String)
  | urgent (v : String)
  | windowRole (v : OrFocused String)
  | windowType (v : String)
  | workspace (v : OrFocused String)
deriving DecidableEq

/-- The `derive_more::Display` rendering of each criterion, from the
`#[display(fmt = ...)]` attributes in src/lib.rs. -/
def Criteria.render : Criteria → String
  | .appId v => "app_id=\"" ++ v.render ++ "\""
  | .class_ v => "class=\"" ++ v.render ++ "\""
  | .conId v => "con_id=\"" ++ v.render ++ "\""
  | .conMark v => "con_mark=\"" ++ v ++ "\""
  | .floating => "floating"
  | .id v => "id=\"" ++ toString v ++ "\""
  | .instance_ v => "instance=\"" ++ v.render ++ "\""
  | .shell v => "shell=\"" ++ v.render ++ "\""
  | .tiling => "tiling"
  | .title v => "title=\"" ++ v.render ++ "\""
  | .urgent v => "urgent=\"" ++ v ++ "\""
  | .windowRole v => "window_role=\"" ++ v.render ++ "\""
  | .windowType v => "window_type=\"" ++ v ++ "\""
  | .workspace v => "workspace=\"" ++ v.render ++ "\""

/-- Model of `enum Command` from src/lib.rs.  The `CriteriaCommand` struct (a
criteria list plus a boxed inner command) is inlined into the
`withCriteria` constructor. -/
inductive Command where
  | withCriteria (criteria : List Criteria) (command : Command)
  | exec (s : String)
  | raw (s : String)
deriving DecidableEq

/-- The `derive_more::Display` rendering of `Command`: a `withCriteria`
node shows `[criteria joined by single spaces] inner`
(`itertools::join(criteria, " ")`), `exec s` shows `exec s`, and `raw s`
shows `s`. -/
def Command.render : Command → String
  | .withCriteria criteria command =>
      "[" ++ String.intercalate " " (criteria.map Criteria.render) ++ "] " ++
        command.render
  | .exec s => "exec " ++ s
  | .raw s => s

/-- Model of `Command::with_criteria` from src/lib.rs: extend the list of an
existing `withCriteria` node, otherwise wrap in a fresh node. -/
def Command.with_criteria : Command → List Criteria → Command
  | .withCriteria cs cmd, criteria => .withCriteria (cs ++ criteria) cmd
  | .exec s, criteria => .withCriteria criteria (.exec s)
  | .raw s, criteria => .withCriteria criteria (.raw s)

/-- Whether a command is a `withCriteria` node. -/
def Command.isWithCriteria : Command → Bool
  | .withCriteria _ _ => true
  | _ => false

/-- C3: applying `with_criteria` twice flattens rather than nests: the
result is literally `with_criteria c (a ++ b)` (hence renders identically
to it), and when `c` is not already a `withCriteria` node it is a single
`withCriteria` node carrying exactly the list `a ++ b` around `c`. -/
theorem with_criteria_flattens (c : Command) (a b : List Criteria) :
    (c.with_criteria a).with_criteria b = c.with_criteria (a ++ b) ∧
    ((c.with_criteria a).with_criteria b).render =
      (c.with_criteria (a ++ b)).render ∧
    (c.isWithCriteria = false →
      (c.with_criteria a).with_criteria b = .withCriteria (a ++ b) c) := by
  have h : (c.with_criteria a).with_criteria b = c.with_criteria (a ++ b) := by
    cases c <;> simp [Command.with_criteria, List.append_assoc]
  refine ⟨h, by rw [h], fun hc => ?_⟩
  rw [h]
  cases c <;> simp_all [Command.with_criteria, Command.isWithCriteria]

/-- C3 witness at a concrete command and criteria lists. -/
theorem with_criteria_flattens_witness :
    ((Command.raw "x").with_criteria [.floating]).with_criteria [.tiling] =
      (Command.raw "x").with_criteria [.floating, .tiling] ∧
    (((Command.raw "x").with_criteria [.floating]).with_criteria [.tiling]).render =
      ((Command.raw "x").with_criteria [.floating, .tiling]).render ∧
    ((Command.raw "x").isWithCriteria = false →
      ((Command.raw "x").with_criteria [.floating]).with_criteria [.tiling] =
        .withCriteria [.floating, .tiling] (.raw "x")) :=
  with_criteria_flattens (.raw "x") [.floating] [.tiling]

/-- C4: a `withCriteria` node with a non-empty criteria list renders as
`[` then the criteria renderings joined by single spaces in the order
supplied (the map preserves the list), then `] ` and the inner rendering;
each criterion renders as `key="value"` with `__focused__` for the focused
sentinel, while `floating` and `tiling` render as the bare keyword. -/
theorem withCriteria_render_nonempty (cs : List Criteria) (cmd : Command)
    (_h : cs ≠ []) :
    Command.render (.withCriteria cs cmd) =
      "[" ++ String.intercalate " " (cs.map Criteria.render) ++ "] " ++
        cmd.render ∧
    (∀ v, (Criteria.appId v).render = "app_id=\"" ++ v.render ++ "\"") ∧
    (∀ v, (Criteria.class_ v).render = "class=\"" ++ v.render ++ "\"") ∧
    (∀ v, (Criteria.conId v).render = "con_id=\"" ++ v.render ++ "\"") ∧
    (∀ v, (Criteria.conMark v).render = "con_mark=\"" ++ v ++ "\"") ∧
    Criteria.floating.render = "floating" ∧
    (∀ v, (Criteria.id v).render = "id=\"" ++ toString v ++ "\"") ∧
    (∀ v, (Criteria.instance_ v).render = "instance=\"" ++ v.render ++ "\"") ∧
    (∀ v, (Criteria.shell v).render = "shell=\"" ++ v.render ++ "\"") ∧
    Criteria.tiling.render = "tiling" ∧
    (∀ v, (Criteria.title v).render = "title=\"" ++ v.render ++ "\"") ∧
    (∀ v, (Criteria.urgent v).render = "urgent=\"" ++ v ++ "\"") ∧
    (∀ v, (Criteria.windowRole v).render = "window_role=\"" ++ v.render ++ "\"") ∧
    (∀ v, (Criteria.windowType v).render = "window_type=\"" ++ v ++ "\"") ∧
    (∀ v, (Criteria.workspace v).render = "workspace=\"" ++ v.render ++ "\"") ∧
    (OrFocused.focused : OrFocused String).render = "__focused__" ∧
    (OrFocused.focused : OrFocused Nat).render = "__focused__" ∧
    (∀ s : String, (OrFocused.value s).render = s) ∧
    (∀ n : Nat, (OrFocused.value n).render = toString n) :=
  ⟨rfl, fun _ => rfl, fun _ => rfl, fun _ => rfl, fun _ => rfl, rfl,
    fun _ => rfl, fun _ => rfl, fun _ => rfl, rfl, fun _ => rfl, fun _ => rfl,
    fun _ => rfl, fun _ => rfl, fun _ => rfl, rfl, rfl,
    fun _ => rfl, fun _ => rfl⟩

/-- C4 witness: the multi-criteria rendering from the source's own test,
preserving supplied order and using the focused sentinel. -/
theorem withCriteria_render_nonempty_witness :
    [Criteria.conMark "123", .conId (.value 123), .workspace .focused] ≠
      ([] : List Criteria) ∧
    Command.render
        (.withCriteria [.conMark "123", .conId (.value 123), .workspace .focused]
          (.raw "123123")) =
      "[con_mark=\"123\" con_id=\"123\" workspace=\"__focused__\"] 123123" := by
  refine ⟨by decide, ?_⟩
  have h := (withCriteria_render_nonempty
    [.conMark "123", .conId (.value 123), .workspace .focused]
    (.raw "123123") (by decide)).1
  rw [h]
  rfl

/-- C5 counterexample: a `withCriteria` node with an empty criteria list
does not render as the inner command unchanged — it keeps a `[] ` prefix. -/
theorem withCriteria_render_empty_counterexample :
    Command.render (.withCriteria [] (.raw "x")) ≠ Command.render (.raw "x") := by
  decide

/-- C5 amended: a `withCriteria` node with an empty criteria list renders
as `"[] "` followed by the inner command's rendering (the display format
is unconditional; there is no fallback to the bare inner rendering). -/
theorem withCriteria_render_empty (cmd : Command) :
    Command.render (.withCriteria [] cmd) = "[] " ++ cmd.render :=
  rfl

/-- Model of `enum Error` from src/lib.rs.  `io` carries the `raw_os_error` code of
the underlying `io::Error` (the only part the client inspects). -/
inductive Error where
  | sockPathNotFound
  | subscriptionError
  | alreadySubscribed
  | io (rawOsError : Option Nat)
  | json
deriving DecidableEq

/-- Outcome of a `Client::ipc` call: a reply payload, an `Error`, or a
Rust panic (from `unwrap`/`unreachable!`). -/
inductive IpcResult where
  | ok (payload : List Nat)
  | error (e : Error)
  | panicked
deriving DecidableEq

/-- A decoded frame: its `type_code` and payload bytes. -/
abbrev Frame := Nat × List Nat

/-- An entry on the subscription queue, as sent by
`tx.send((IpcEvent, payload))`. -/
abbrev QueueEntry := IpcEvent × List Nat

/-- The `Client` struct plus its socket environment: the frames still to
be read (each read of `read_response` consumes the head; an exhausted list
reads as the timeout I/O error, `raw_os_error = 11`), whether the
subscription producer (`subscription_events`) is installed, whether the
channel's consumer end is still alive (a `send` on a dropped consumer
fails), the events delivered to the subscription queue so far, and the
bytes written to the socket so far. -/
structure Conn where
  incoming : List Frame
  sub : Bool
  consumerAlive : Bool
  queue : List QueueEntry
  outgoing : List Nat
deriving DecidableEq

/-- The read loop of `Client::ipc` (src/client.rs lines 96-107), reading
frames until a reply.  Returns the outcome, the events forwarded to the
subscription queue in order, and the frames left unread.  Per the source:
a frame whose `type_code & IpcEvent::Workspace as u32 > 0` (bit 31) is an
event — with a producer installed it is converted by
`IpcEvent::from_u32(...).unwrap()` (panic when the table has no such
code) and sent (a failed send is `SubscriptionError`); with no producer
the `if let` falls through and the loop continues.  A bit-31-clear frame
is the reply: its payload is returned. -/
def ipcLoop (sub consumerAlive : Bool) : List Frame →
    IpcResult × List QueueEntry × List Frame
  | [] => (.error (.io (some 11)), [], [])
  | (t, p) :: rest =>
    if 0 < Nat.land t (IpcEvent.code .workspace) then
      if sub then
        match IpcEvent.fromU32 t with
        | none => (.panicked, [], rest)
        | some e =>
          if consumerAlive then
            let r := ipcLoop sub consumerAlive rest
            (r.1, (e, p) :: r.2.1, r.2.2)
          else (.error .subscriptionError, [], rest)
      else ipcLoop sub consumerAlive rest
    else (.ok p, [], rest)

/-- Model of `Client::ipc` from src/client.rs: write the encoded frame
(`send_command`), then run the read loop; forwarded events are appended to
the subscription queue. -/
def Client.ipc (c : Conn) (cmd : IpcCommand) : IpcResult × Conn :=
  let r := ipcLoop c.sub c.consumerAlive c.incoming
  (r.1,
    { c with
        outgoing := c.outgoing ++ cmd.write
        incoming := r.2.2
        queue := c.queue ++ r.2.1 })

/-- The outcome of the single `read_response` call inside `Client::poll`:
either a decoded frame or an `Error::Io` carrying the OS error code. -/
inductive ReadOutcome where
  | ok (frame : Frame)
  | ioError (rawOsError : Option Nat)
deriving DecidableEq

/-- Outcome of a `Client::poll` call. -/
inductive PollResult where
  | ok
  | error (e : Error)
  | panicked
deriving DecidableEq

/-- Model of `Client::poll` from src/client.rs lines 48-67, over the outcome of its
one frame read.  An `Io` error with `raw_os_error == Some(11)`
(EAGAIN/EWOULDBLOCK) is absorbed as `Ok(())`; any other I/O error
propagates.  An event frame is forwarded exactly as in `ipcLoop`; a
bit-31-clear frame hits `unreachable!()` (a panic).  Returns the result
and the entries sent to the subscription queue. -/
def Client.poll (sub consumerAlive : Bool) (r : ReadOutcome) :
    PollResult × List QueueEntry :=
  match r with
  | .ioError code =>
    if code = some 11 then (.ok, []) else (.error (.io code), [])
  | .ok (t, p) =>
    if 0 < Nat.land t (IpcEvent.code .workspace) then
      if sub then
        match IpcEvent.fromU32 t with
        | none => (.panicked, [])
        | some e =>
          if consumerAlive then (.ok, [(e, p)])
          else (.error .subscriptionError, [])
      else (.ok, [])
    else (.panicked, [])

/-- Outcome of a `Client::subscribe` call. -/
inductive SubscribeResult where
  | ok
  | error (e : Error)
  | panicked
deriving DecidableEq

/-- Model of `Client::subscribe` from src/client.rs lines 142-154: if a producer is
already installed, return `AlreadySubscribed` before any socket I/O;
otherwise create the channel (fresh pair, so the consumer is alive),
install the producer, and issue the `Subscribe` command through
`Client.ipc`. -/
def Client.subscribe (c : Conn) (eventTypes : List IpcEvent) :
    SubscribeResult × Conn :=
  if c.sub then (.error .alreadySubscribed, c)
  else
    let c1 := { c with sub := true, consumerAlive := true }
    match Client.ipc c1 (.subscribe eventTypes) with
    | (.ok _, c2) => (.ok, c2)
    | (.error e, c2) => (.error e, c2)
    | (.panicked, c2) => (.panicked, c2)

/-- Outcome of `Client::read_response` on a raw byte stream: a decoded
frame plus the remaining bytes, an I/O error (short read), or a panic
(failed `debug_assert_eq!` in a debug build). -/
inductive ReadRespResult where
  | ok (frame : Frame) (rest : List Nat)
  | ioError
  | panicked
deriving DecidableEq

/-- Read a native-order (little-endian) `u32` off the byte stream. -/
def readU32ne : List Nat → Option (Nat × List Nat)
  | b0 :: b1 :: b2 :: b3 :: rest =>
    some (b0 + 256 * b1 + 65536 * b2 + 16777216 * b3, rest)
  | _ => none

/-- The tail of `read_response` after the magic bytes (src/client.rs lines
73-78): read the payload length, the payload type, then exactly
`payload_length` bytes of payload. -/
def decodeAfterMagic (bytes : List Nat) : ReadRespResult :=
  match readU32ne bytes with
  | none => .ioError
  | some (payload_length, rest) =>
    match readU32ne rest with
    | none => .ioError
    | some (payload_type, rest) =>
      if payload_length ≤ rest.length then
        .ok (payload_type, rest.take payload_length) (rest.drop payload_length)
      else .ioError

/-- Model of `Client::read_response` from src/client.rs lines 69-79: read 6 magic
bytes, the payload length, the type code, then the payload.  The magic
bytes are compared only by `debug_assert_eq!`: with `debugAssertions`
(a debug build) a mismatch panics, in a release build the comparison is
compiled out and decoding proceeds regardless.  Every short read is an
`Error::Io`. -/
def Client.read_response (debugAssertions : Bool) (input : List Nat) :
    ReadRespResult :=
  if 6 ≤ input.length then
    if debugAssertions = true ∧ input.take 6 ≠ MAGIC then .panicked
    else decodeAfterMagic (input.drop 6)
  else .ioError

/-- How a forwarded event frame appears on the subscription queue: its
type code converted through the event table, with its payload. -/
def toQueueEntry (f : Frame) : QueueEntry :=
  ((IpcEvent.fromU32 f.1).getD .workspace, f.2)

/-- The read loop on a stream of event frames followed by a reply frame:
with the producer installed, the consumer alive, and every event code in
the table, it forwards the events in order and returns the reply payload. -/
theorem ipcLoop_append (evs : List Frame) (rt : Nat) (rp : List Nat)
    (rest : List Frame)
    (hev : ∀ f ∈ evs, 0 < Nat.land f.1 (IpcEvent.code .workspace) ∧
      (IpcEvent.fromU32 f.1).isSome = true)
    (hr : ¬ 0 < Nat.land rt (IpcEvent.code .workspace)) :
    ipcLoop true true (evs ++ (rt, rp) :: rest) =
      (.ok rp, evs.map toQueueEntry, rest) := by
  induction evs with
  | nil => simp [ipcLoop, hr]
  | cons f evs ih =>
    obtain ⟨t, p⟩ := f
    obtain ⟨hbit, hsome⟩ := hev (t, p) (List.mem_cons_self _ _)
    obtain ⟨e, he⟩ := Option.isSome_iff_exists.mp hsome
    have ih' := ih fun g hg => hev g (List.mem_cons_of_mem _ hg)
    simp [ipcLoop, hbit, he, ih', toQueueEntry]

/-- C1: during an `ipc` call with a producer installed and the consumer
alive, every bit-31 frame read before the first bit-31-clear frame is
forwarded to the subscription queue in the order read, `ipc` returns the
payload of that first bit-31-clear frame, and the reply frame itself is
never queued (the queue grows by exactly the event frames). -/
theorem ipc_multiplexes_events (c : Conn) (cmd : IpcCommand)
    (evs : List Frame) (rt : Nat) (rp : List Nat) (rest : List Frame)
    (hsub : c.sub = true) (halive : c.consumerAlive = true)
    (hinc : c.incoming = evs ++ (rt, rp) :: rest)
    (hev : ∀ f ∈ evs, 0 < Nat.land f.1 (IpcEvent.code .workspace) ∧
      (IpcEvent.fromU32 f.1).isSome = true)
    (hr : ¬ 0 < Nat.land rt (IpcEvent.code .workspace)) :
    (Client.ipc c cmd).1 = .ok rp ∧
    (Client.ipc c cmd).2.queue = c.queue ++ evs.map toQueueEntry ∧
    (Client.ipc c cmd).2.incoming = rest := by
  have h := ipcLoop_append evs rt rp rest hev hr
  simp [Client.ipc, hsub, halive, hinc, h]

/-- C1 witness: two event frames (window, tick) arrive before the reply to
a `getTree` request; both land on the queue in order, behind an entry
already there, and the reply payload `[9]` is returned un-queued. -/
theorem ipc_multiplexes_events_witness :
    (Client.ipc
        ⟨[(0x80000003, [1]), (0x80000007, [2]), (4, [9]), (0x80000000, [3])],
          true, true, [(.tick, [0])], [5]⟩ .getTree).1 = .ok [9] ∧
    (Client.ipc
        ⟨[(0x80000003, [1]), (0x80000007, [2]), (4, [9]), (0x80000000, [3])],
          true, true, [(.tick, [0])], [5]⟩ .getTree).2.queue =
      [(.tick, [0]), (.window, [1]), (.tick, [2])] ∧
    (Client.ipc
        ⟨[(0x80000003, [1]), (0x80000007, [2]), (4, [9]), (0x80000000, [3])],
          true, true, [(.tick, [0])], [5]⟩ .getTree).2.incoming =
      [(0x80000000, [3])] :=
  ipc_multiplexes_events
    ⟨[(0x80000003, [1]), (0x80000007, [2]), (4, [9]), (0x80000000, [3])],
      true, true, [(.tick, [0])], [5]⟩
    .getTree [(0x80000003, [1]), (0x80000007, [2])] 4 [9] [(0x80000000, [3])]
    rfl rfl rfl (by decide) (by decide)

/-- C7 counterexample: with no subscription producer installed, `ipc` on a
stream holding an event frame and then the reply silently drops the event
and returns the reply — no fatal failure, no error, no panic. -/
theorem ipc_event_without_subscription_counterexample :
    Client.ipc ⟨[(0x80000003, [1]), (4, [2])], false, false, [], []⟩ .getTree =
      (.ok [2], ⟨[], false, false, [], IpcCommand.write .getTree⟩) := by
  decide

/-- C7 amended: during `ipc`, a bit-31 frame read while no producer is
installed is silently skipped (the `if let` falls through) and the loop
continues with the remaining frames. -/
theorem ipc_event_without_subscription_skips (t : Nat) (p : List Nat)
    (rest : List Frame) (alive : Bool)
    (h : 0 < Nat.land t (IpcEvent.code .workspace)) :
    ipcLoop false alive ((t, p) :: rest) = ipcLoop false alive rest := by
  simp [ipcLoop, h]

/-- C7 amended witness at the event code for `window`. -/
theorem ipc_event_without_subscription_skips_witness :
    0 < Nat.land 0x80000003 (IpcEvent.code .workspace) ∧
    ipcLoop false false [(0x80000003, [1]), (4, [2])] =
      ipcLoop false false [(4, [2])] :=
  ⟨by decide,
    ipc_event_without_subscription_skips 0x80000003 [1] [(4, [2])] false
      (by decide)⟩

/-- C8: `poll` absorbs the no-data timeout signal — an `Io` error whose
`raw_os_error` is `Some(11)` (EAGAIN/EWOULDBLOCK) — as success with no
effect on the queue, and propagates every other I/O error as a fatal
`Error::Io`. -/
theorem poll_timeout_is_ok (sub alive : Bool) (code : Option Nat)
    (h : code ≠ some 11) :
    Client.poll sub alive (.ioError (some 11)) = (.ok, []) ∧
    Client.poll sub alive (.ioError code) = (.error (.io code), []) := by
  exact ⟨rfl, by simp [Client.poll, h]⟩

/-- C8 witness: EAGAIN (code 11) is absorbed; code 5 (EIO) propagates. -/
theorem poll_timeout_is_ok_witness :
    (some 5 : Option Nat) ≠ some 11 ∧
    Client.poll true true (.ioError (some 11)) = (.ok, []) ∧
    Client.poll true true (.ioError (some 5)) = (.error (.io (some 5)), []) :=
  ⟨by decide, poll_timeout_is_ok true true (some 5) (by decide)⟩

/-- C9: `subscribe` on a connection whose producer is already installed
returns `AlreadySubscribed` and returns the connection itself unchanged:
nothing is written to the socket, nothing read, and the existing
producer and queue are untouched. -/
theorem subscribe_already_subscribed (c : Conn) (eventTypes : List IpcEvent)
    (h : c.sub = true) :
    Client.subscribe c eventTypes = (.error .alreadySubscribed, c) := by
  simp [Client.subscribe, h]

/-- C9 witness on a connection with an installed producer, a non-empty
queue and pending bytes. -/
theorem subscribe_already_subscribed_witness :
    (⟨[(4, [2])], true, true, [(.window, [7])], [1]⟩ : Conn).sub = true ∧
    Client.subscribe ⟨[(4, [2])], true, true, [(.window, [7])], [1]⟩ [.window] =
      (.error .alreadySubscribed,
        ⟨[(4, [2])], true, true, [(.window, [7])], [1]⟩) :=
  ⟨rfl,
    subscribe_already_subscribed
      ⟨[(4, [2])], true, true, [(.window, [7])], [1]⟩ [.window] rfl⟩

/-- C10: the event-bit frame code `0x80000001` is outside the event table,
so `IpcEvent::from_u32` returns nothing and the unconditional `unwrap`
panics: with a producer installed, both the `ipc` read loop and `poll`
panic on such a frame instead of returning an error (whether or not the
consumer is alive — the `unwrap` happens before the send). -/
theorem event_unwrap_panics (p : List Nat) (rest : List Frame) (alive : Bool) :
    IpcEvent.fromU32 0x80000001 = none ∧
    0 < Nat.land 0x80000001 (IpcEvent.code .workspace) ∧
    ipcLoop true alive ((0x80000001, p) :: rest) = (.panicked, [], rest) ∧
    Client.poll true alive (.ok (0x80000001, p)) = (.panicked, []) :=
  ⟨rfl, by decide, rfl, rfl⟩

/-- C6 counterexample: in a release build (`debugAssertions = false`), a
frame whose first 6 bytes are not `"i3-ipc"` is decoded anyway — the
length and type code are parsed and the frame is returned with no error;
in a debug build the mismatch panics, which is not a protocol error
either (`Error` has no protocol-error variant at all). -/
theorem read_response_bad_magic_counterexample :
    Client.read_response false
        ([0, 0, 0, 0, 0, 0] ++ u32ne 1 ++ u32ne 4 ++ [7]) = .ok (4, [7]) [] ∧
    Client.read_response true
        ([0, 0, 0, 0, 0, 0] ++ u32ne 1 ++ u32ne 4 ++ [7]) = .panicked := by
  decide

/-- C6 amended: the magic bytes are consumed but validated only by
`debug_assert_eq!`: a debug build panics on a mismatch, while a release
build decodes exactly as if the magic had matched; no error is returned
in either build. -/
theorem read_response_magic_debug_assert_only (p6 rest : List Nat)
    (hlen : p6.length = 6) (hne : p6 ≠ MAGIC) :
    Client.read_response true (p6 ++ rest) = .panicked ∧
    Client.read_response false (p6 ++ rest) =
      Client.read_response false (MAGIC ++ rest) := by
  have htake : (p6 ++ rest).take 6 = p6 := by
    rw [← hlen]; exact List.take_left p6 rest
  have hdrop : (p6 ++ rest).drop 6 = rest := by
    rw [← hlen]; exact List.drop_left p6 rest
  have hdropM : (MAGIC ++ rest).drop 6 = rest := List.drop_left MAGIC rest
  have hlen1 : 6 ≤ (p6 ++ rest).length := by
    rw [List.length_append, hlen]; omega
  have hlenM : (MAGIC : List Nat).length = 6 := rfl
  have hlen2 : 6 ≤ (MAGIC ++ rest).length := by
    rw [List.length_append, hlenM]; omega
  constructor
  · unfold Client.read_response
    rw [if_pos hlen1, if_pos ⟨rfl, by rw [htake]; exact hne⟩]
  · unfold Client.read_response
    rw [hdrop, hdropM, if_pos hlen1, if_pos hlen2, if_neg, if_neg]
    · simp
    · simp

/-- C6 amended witness at an all-zero bogus magic. -/
theorem read_response_magic_debug_assert_only_witness :
    ([0, 0, 0, 0, 0, 0] : List Nat).length = 6 ∧
    ([0, 0, 0, 0, 0, 0] : List Nat) ≠ MAGIC ∧
    Client.read_response true ([0, 0, 0, 0, 0, 0] ++ [1, 0, 0, 0]) = .panicked ∧
    Client.read_response false ([0, 0, 0, 0, 0, 0] ++ [1, 0, 0, 0]) =
      Client.read_response false (MAGIC ++ [1, 0, 0, 0]) :=
  ⟨rfl, by decide,
    (read_response_magic_debug_assert_only [0, 0, 0, 0, 0, 0] [1, 0, 0, 0]
      rfl (by decide)).1,
    (read_response_magic_debug_assert_only [0, 0, 0, 0, 0, 0] [1, 0, 0, 0]
      rfl (by decide)).2⟩

end Ksway
